import Mathlib

/-!
Shallow embedding of `src/agent.py` (Student Career Assistant Agent).

Python strings are Lean `String`s; Python's `str.lower()` is modelled by
mapping `Char.toLower` over the characters, and the substring test
`needle in haystack` by `subMatch`.  Python dictionaries with a fixed key
set are modelled as structures; the dictionary `StudentMemoryBank.students`
is modelled as a function `String → Option Session` (a Python dict is a
partial map; no claim depends on its iteration order).  Each call to
`datetime.now().isoformat()` is modelled by an explicit timestamp argument.
The `results` dictionary built by `process_query` is modelled as an
association list in insertion order (its four possible keys are distinct,
so dict insertion coincides with list append).
-/

namespace Agent

/-- Characters of a string after lower-casing: models Python `s.lower()`
viewed as its character sequence. -/
def lowerChars (s : String) : List Char :=
  s.toList.map Char.toLower

/-- Python `s.lower()` as a `String`. -/
def strLower (s : String) : String :=
  String.map Char.toLower s

/-- `leadMatch n h` is true when `n` matches the leading characters of `h`. -/
def leadMatch : List Char → List Char → Bool
  | [], _ => true
  | _ :: _, [] => false
  | a :: as, b :: bs => a == b && leadMatch as bs

/-- `subMatch n h` models Python `n in h` on strings: `n` occurs as a
contiguous substring of `h`. -/
def subMatch (need : List Char) : List Char → Bool
  | [] => leadMatch need []
  | b :: bs => leadMatch need (b :: bs) || subMatch need bs

/-- Python `any(word in ql for word in words)` where `ql` is a lower-cased
query's character list. -/
def anyWordIn (words : List String) (ql : List Char) : Bool :=
  words.any (fun w => subMatch w.toList ql)

/-- Python `topic.lower().replace(' ', '_')` in
`LearningResourceAgent.recommend`. -/
def normTopic (topic : String) : String :=
  String.map (fun c => if c = ' ' then '_' else c) (strLower topic)

/-- An entry of the DSA problem catalog: `{'name', 'topic', 'difficulty'}`. -/
structure Problem where
  name : String
  topic : String
  difficulty : String
deriving DecidableEq

namespace DSAProblemRecommender

/-- The fixed catalog `self.problems` of `DSAProblemRecommender.__init__`,
looked up by level key (Python `self.problems.get(key, [])`). -/
def problems (key : String) : List Problem :=
  if key = "easy" then
    [⟨"Two Sum", "Array", "Easy"⟩,
     ⟨"Valid Parentheses", "Stack", "Easy"⟩,
     ⟨"Merge Two Sorted Lists", "Linked List", "Easy"⟩]
  else if key = "medium" then
    [⟨"LRU Cache", "Design", "Medium"⟩,
     ⟨"Binary Tree Level Order", "Tree", "Medium"⟩,
     ⟨"Longest Substring", "String", "Medium"⟩]
  else if key = "hard" then
    [⟨"Median of Two Sorted Arrays", "Binary Search", "Hard"⟩,
     ⟨"Word Ladder II", "Graph", "Hard"⟩]
  else []

/-- `DSAProblemRecommender.recommend(level, topic=None)`. -/
def recommend (level : String) (topic : Option String) : List Problem :=
  let ps := problems (strLower level)
  match topic with
  | none => ps
  | some t => ps.filter (fun p => strLower p.topic == strLower t)

end DSAProblemRecommender

namespace ResumeAnalyzer

/-- `self.ats_keywords['technical_skills']` of `ResumeAnalyzer.__init__`. -/
def technical_skills : List String :=
  ["python", "java", "c++", "javascript", "sql", "react", "aws", "docker", "kubernetes"]

/-- `self.ats_keywords['soft_skills']` (never read by `analyze`). -/
def soft_skills : List String :=
  ["leadership", "communication", "teamwork", "problem-solving", "analytical"]

/-- `self.ats_keywords['action_verbs']` (never read by `analyze`). -/
def action_verbs : List String :=
  ["developed", "implemented", "designed", "optimized", "led", "managed", "created"]

/-- The analysis dict built by `ResumeAnalyzer.analyze`; its
`keyword_analysis` sub-dict only ever receives the `'technical_skills'`
key, modelled as the field `keyword_analysis_technical_skills`. -/
structure Analysis where
  ats_score : Nat
  keyword_analysis_technical_skills : List String
  suggestions : List String
  strengths : List String
deriving DecidableEq

/-- `found_tech` of `ResumeAnalyzer.analyze`: the technical skills that are
substrings of the lower-cased resume text. -/
def found_tech (resume_text : String) : List String :=
  technical_skills.filter (fun skill => subMatch skill.toList (lowerChars resume_text))

/-- `ResumeAnalyzer.analyze(resume_text, target_role)`; `target_role` is
accepted but never read by the body. -/
def analyze (resume_text : String) (target_role : String) : Analysis :=
  let found := found_tech resume_text
  { ats_score := min 100 (found.length * 5 + 20)
    keyword_analysis_technical_skills := found
    suggestions :=
      if found.length < 5 then ["Add more technical skills relevant to the role"] else []
    strengths :=
      if found.isEmpty then []
      else ["Found " ++ toString found.length ++ " relevant technical skills"] }

end ResumeAnalyzer

/-- An entry of the learning-resource catalog: `{'title', 'type', 'difficulty'}`. -/
structure Resource where
  title : String
  type : String
  difficulty : String
deriving DecidableEq

namespace LearningResourceAgent

/-- The fixed catalog `self.resources` of `LearningResourceAgent.__init__`,
looked up by normalized topic key (Python `self.resources.get(key, [])`). -/
def resources (key : String) : List Resource :=
  if key = "dsa" then
    [⟨"LeetCode Patterns", "Practice", "Medium"⟩,
     ⟨"Neetcode.io", "Video + Practice", "All levels"⟩]
  else if key = "system_design" then
    [⟨"System Design Primer (GitHub)", "Article", "Beginner"⟩,
     ⟨"ByteByteGo", "Video", "All levels"⟩]
  else []

/-- `LearningResourceAgent.recommend(topic, level='All levels')`; `level`
is accepted but never read by the body. -/
def recommend (topic : String) (level : String) : List Resource :=
  resources (normTopic topic)

end LearningResourceAgent

namespace StudyPlannerAgent

/-- One entry of `plan['weekly_schedule']`. -/
structure WeekPlan where
  week : Nat
  focus : String
  activities : List String
deriving DecidableEq

/-- The plan dict built by `StudyPlannerAgent.create_plan`. -/
structure Plan where
  duration : String
  daily_commitment : String
  weekly_schedule : List WeekPlan
  milestones : List String
deriving DecidableEq

/-- `StudyPlannerAgent.create_plan(weeks, focus_areas, hours_per_day=4)`.
Python's `focus_areas[(week - 1) % len(focus_areas)]` is modelled with
`List.getD` (Python raises on an empty `focus_areas`; every claim about
this function assumes it non-empty, where the two agree). -/
def create_plan (weeks : Nat) (focus_areas : List String) (hours_per_day : Nat) : Plan :=
  { duration := toString weeks ++ " weeks"
    daily_commitment := toString hours_per_day ++ " hours/day"
    weekly_schedule :=
      (List.range weeks).map (fun i =>
        let week := i + 1
        { week := week
          focus := focus_areas.getD ((week - 1) % focus_areas.length) ""
          activities := ["Practice coding problems", "Mock interviews", "Resume review"] })
    milestones := [] }

end StudyPlannerAgent

/-- The `details` dict of the one activity record `process_query` writes:
`{'question': query, 'timestamp': ...}`. -/
structure QueryDetails where
  question : String
  timestamp : String
deriving DecidableEq

/-- One entry of a student's `progress` list
(`StudentMemoryBank.update_progress`). -/
structure ActivityRecord where
  activity : String
  details : QueryDetails
  timestamp : String
deriving DecidableEq

/-- One value of the `self.students` dict
(`StudentMemoryBank.add_student`). -/
structure Session where
  profile : List (String × String)
  progress : List ActivityRecord
  preferences : List (String × String)
  created_at : String
deriving DecidableEq

/-- The `self.students` dict of `StudentMemoryBank`, as a partial map. -/
def Store := String → Option Session

namespace StudentMemoryBank

/-- `StudentMemoryBank.add_student(student_id, profile)`; `now` models the
`datetime.now().isoformat()` call.  Assignment into the dict inserts or
overwrites. -/
def add_student (students : Store) (student_id : String)
    (profile : List (String × String)) (now : String) : Store :=
  fun k =>
    if k = student_id then
      some { profile := profile, progress := [], preferences := [], created_at := now }
    else students k

/-- `StudentMemoryBank.update_progress(student_id, activity, details)`;
`now` models the `datetime.now().isoformat()` call.  When `student_id` is
absent the body's `if student_id in self.students` guard fails and the
dict is untouched. -/
def update_progress (students : Store) (student_id : String) (activity : String)
    (details : QueryDetails) (now : String) : Store :=
  fun k =>
    if k = student_id then
      match students student_id with
      | some s =>
          some { s with progress :=
            s.progress ++ [{ activity := activity, details := details, timestamp := now }] }
      | none => none
    else students k

/-- `StudentMemoryBank.get_student_context(student_id)`: Python returns the
session dict, or the empty dict `{}` when absent; `none` models `{}`. -/
def get_student_context (students : Store) (student_id : String) : Option Session :=
  students student_id

end StudentMemoryBank

/-- A value of the `response['results']` dict of
`CoordinatorAgent.process_query`: one of the four responder outputs. -/
inductive ResultValue where
  | dsa : List Problem → ResultValue
  | resume : ResumeAnalyzer.Analysis → ResultValue
  | resources : List Resource → ResultValue
  | plan : StudyPlannerAgent.Plan → ResultValue
deriving DecidableEq

/-- The `response` dict built by `CoordinatorAgent.process_query`. -/
structure QueryResponse where
  student_id : String
  query : String
  results : List (String × ResultValue)
  summary : String
deriving DecidableEq

/-- Python `key in results` for the results association list. -/
def hasKey (results : List (String × ResultValue)) (key : String) : Bool :=
  results.any (fun kv => kv.1 == key)

/-- Python `results[key]` for the results association list. -/
def getKey (results : List (String × ResultValue)) (key : String) : Option ResultValue :=
  (results.find? (fun kv => kv.1 == key)).map Prod.snd

namespace CoordinatorAgent

/-- The difficulty resolution inside the problem branch of
`CoordinatorAgent.process_query`: `level = 'medium'`, then
`if 'easy' in query_lower: level = 'easy' elif 'hard' in query_lower:
level = 'hard'`. -/
def resolveLevel (query_lower : List Char) : String :=
  if subMatch "easy".toList query_lower then "easy"
  else if subMatch "hard".toList query_lower then "hard"
  else "medium"

/-- `CoordinatorAgent.process_query(student_id, query)`.  Returns the
response together with the updated student store.  `t_detail` models the
`datetime.now().isoformat()` written into the activity details and
`t_record` the one taken inside `update_progress`.  The fetched context is
bound (as in the source) but consumed by nothing. -/
def process_query (students : Store) (student_id : String) (query : String)
    (t_detail t_record : String) : QueryResponse × Store :=
  let _context := StudentMemoryBank.get_student_context students student_id
  let query_lower := lowerChars query
  let dsaPart :=
    if anyWordIn ["problem", "dsa", "algorithm"] query_lower then
      [("dsa_recommendations",
        ResultValue.dsa (DSAProblemRecommender.recommend (resolveLevel query_lower) none))]
    else []
  let resumePart :=
    if anyWordIn ["resume", "cv", "ats"] query_lower then
      [("resume_analysis",
        ResultValue.resume (ResumeAnalyzer.analyze "Sample resume text" "Software Engineer"))]
    else []
  let resourcePart :=
    if anyWordIn ["learn", "resource", "study material"] query_lower then
      [("learning_resources",
        ResultValue.resources (LearningResourceAgent.recommend "dsa" "All levels"))]
    else []
  let planPart :=
    if anyWordIn ["plan", "schedule", "weeks"] query_lower then
      [("study_plan",
        ResultValue.plan (StudyPlannerAgent.create_plan 4 ["DSA", "System Design"] 4))]
    else []
  let response : QueryResponse :=
    { student_id := student_id
      query := query
      results := dsaPart ++ resumePart ++ resourcePart ++ planPart
      summary := "Here are your personalized recommendations." }
  (response,
   StudentMemoryBank.update_progress students student_id "query"
     { question := query, timestamp := t_detail } t_record)

end CoordinatorAgent

/-- Demonstration session used by the concrete witnesses below. -/
def demoSession : Session :=
  { profile := [("name", "Sai Ganesh"), ("year", "3rd Year"), ("major", "CS/AI-ML")]
    progress := []
    preferences := []
    created_at := "t0" }

/-- A one-student store used by the concrete witnesses below. -/
def demoStore : Store :=
  fun k => if k = "student_001" then some demoSession else none


theorem hasKey_append (l₁ l₂ : List (String × ResultValue)) (k : String) :
    hasKey (l₁ ++ l₂) k = (hasKey l₁ k || hasKey l₂ k) := by
  simp [hasKey]

theorem hasKey_if_single (c : Prop) [Decidable c] (k key : String) (v : ResultValue) :
    hasKey (if c then [(k, v)] else []) key = (decide c && (k == key)) := by
  split <;> simp [hasKey, *]

theorem anyWordIn_three (w₁ w₂ w₃ : String) (ql : List Char) :
    anyWordIn [w₁, w₂, w₃] ql =
      (subMatch w₁.toList ql || (subMatch w₂.toList ql || subMatch w₃.toList ql)) := by
  simp [anyWordIn]

/-- C1: For every store, user id `u`, query `q` and timestamps, the results
of `process_query` contain the key `"dsa_recommendations"` if and only if
the lower-cased `q` contains `"problem"`, `"dsa"`, or `"algorithm"` as a
substring. -/
theorem process_query_dsa_key_iff (students : Store) (u q t₁ t₂ : String) :
    hasKey (CoordinatorAgent.process_query students u q t₁ t₂).1.results "dsa_recommendations" = true ↔
      (subMatch "problem".toList (lowerChars q) = true ∨
       subMatch "dsa".toList (lowerChars q) = true ∨
       subMatch "algorithm".toList (lowerChars q) = true) := by
  simp [CoordinatorAgent.process_query, hasKey_append, hasKey_if_single, anyWordIn_three]


/-- C2: For every query that triggers the problem category, the resolved
difficulty is `"easy"` when the lower-cased query contains `"easy"`
(checked first, so also when `"hard"` is present), otherwise `"hard"` when
it contains `"hard"`, otherwise the default `"medium"`; and the
`"dsa_recommendations"` entry of the response is the recommender invoked
at that resolved level. -/
theorem resolveLevel_spec (students : Store) (u t₁ t₂ q : String)
    (h : anyWordIn ["problem", "dsa", "algorithm"] (lowerChars q) = true) :
    (subMatch "easy".toList (lowerChars q) = true →
        CoordinatorAgent.resolveLevel (lowerChars q) = "easy") ∧
    (subMatch "easy".toList (lowerChars q) = false →
      subMatch "hard".toList (lowerChars q) = true →
        CoordinatorAgent.resolveLevel (lowerChars q) = "hard") ∧
    (subMatch "easy".toList (lowerChars q) = false →
      subMatch "hard".toList (lowerChars q) = false →
        CoordinatorAgent.resolveLevel (lowerChars q) = "medium") ∧
    getKey (CoordinatorAgent.process_query students u q t₁ t₂).1.results "dsa_recommendations" =
      some (ResultValue.dsa
        (DSAProblemRecommender.recommend (CoordinatorAgent.resolveLevel (lowerChars q)) none)) := by
  refine ⟨?_, ?_, ?_, ?_⟩
  · intro he
    unfold CoordinatorAgent.resolveLevel
    rw [he]
    simp
  · intro he hh
    unfold CoordinatorAgent.resolveLevel
    rw [he, hh]
    simp
  · intro he hh
    unfold CoordinatorAgent.resolveLevel
    rw [he, hh]
    simp
  · simp [CoordinatorAgent.process_query, getKey, h]

/-- C3: For every store in which `u` exists with session `s`, one call to
`process_query` appends exactly one activity record to `u`'s activity
log: the new session is `s` with exactly one record appended, whose kind
tag is `"query"` and whose details carry the original query text. -/
theorem process_query_appends (students : Store) (u q t₁ t₂ : String) (s : Session)
    (h : students u = some s) :
    (CoordinatorAgent.process_query students u q t₁ t₂).2 u =
      some { s with progress := s.progress ++
        [{ activity := "query",
           details := { question := q, timestamp := t₁ },
           timestamp := t₂ }] } := by
  simp [CoordinatorAgent.process_query, StudentMemoryBank.update_progress, h]

/-- C4: For every user id `u` not present in the store, `process_query`
does not fail: the fetched context is empty (`none`), the stored sessions
are unchanged (no session is created for `u`), and a full response
carrying the user id, the query and the fixed summary is still
returned. -/
theorem process_query_missing_user (students : Store) (u q t₁ t₂ : String)
    (h : students u = none) :
    StudentMemoryBank.get_student_context students u = none ∧
    (CoordinatorAgent.process_query students u q t₁ t₂).2 = students ∧
    (CoordinatorAgent.process_query students u q t₁ t₂).1.student_id = u ∧
    (CoordinatorAgent.process_query students u q t₁ t₂).1.query = q ∧
    (CoordinatorAgent.process_query students u q t₁ t₂).1.summary =
      "Here are your personalized recommendations." := by
  refine ⟨h, ?_, rfl, rfl, rfl⟩
  funext k
  by_cases hk : k = u
  · subst hk
    simp [CoordinatorAgent.process_query, StudentMemoryBank.update_progress, h]
  · simp [CoordinatorAgent.process_query, StudentMemoryBank.update_progress, hk]

/-- C5: For every store — in particular one where `id` is already present
— `add_student id p` followed by `get_student_context id` returns a
session whose profile equals `p` and whose activity log is empty: creating
with a duplicate id overwrites the prior session wholesale. -/
theorem add_student_then_get (students : Store) (id : String)
    (p : List (String × String)) (now : String) :
    StudentMemoryBank.get_student_context (StudentMemoryBank.add_student students id p now) id =
      some { profile := p, progress := [], preferences := [], created_at := now } := by
  simp [StudentMemoryBank.get_student_context, StudentMemoryBank.add_student]

/-- C6: The summary of every `process_query` response equals the fixed
literal `"Here are your personalized recommendations."` regardless of
which categories matched; in particular the query `"help me study"`
matches no category keyword set, so its results mapping is empty and the
summary is still that same string. -/
theorem summary_fixed (students : Store) (u q t₁ t₂ : String) :
    (CoordinatorAgent.process_query students u q t₁ t₂).1.summary =
      "Here are your personalized recommendations." ∧
    (CoordinatorAgent.process_query students u "help me study" t₁ t₂).1.results = [] :=
  ⟨rfl, rfl⟩

/-- C7: For every `weeks ≥ 1` and non-empty `focus_areas`, the plan of
`create_plan` has exactly `weeks` entries in its weekly schedule, and the
focus of week `w` (for `1 ≤ w ≤ weeks`) is
`focus_areas[(w - 1) % focus_areas.length]`, that index being in
bounds. -/
theorem create_plan_spec (weeks : Nat) (focus_areas : List String) (hours_per_day : Nat)
    (hw : 1 ≤ weeks) (hf : focus_areas ≠ []) :
    (StudyPlannerAgent.create_plan weeks focus_areas hours_per_day).weekly_schedule.length = weeks ∧
    (∀ w : Nat, 1 ≤ w → w ≤ weeks →
      (w - 1) % focus_areas.length < focus_areas.length ∧
      (StudyPlannerAgent.create_plan weeks focus_areas hours_per_day).weekly_schedule[w - 1]? =
        some { week := w,
               focus := focus_areas.getD ((w - 1) % focus_areas.length) "",
               activities := ["Practice coding problems", "Mock interviews", "Resume review"] }) := by
  have hlen : (StudyPlannerAgent.create_plan weeks focus_areas hours_per_day).weekly_schedule.length = weeks := by
    simp [StudyPlannerAgent.create_plan]
  refine ⟨hlen, ?_⟩
  intro w h1 h2
  refine ⟨Nat.mod_lt _ (by cases focus_areas with
    | nil => exact absurd rfl hf
    | cons a l => simp), ?_⟩
  have hw1 : w - 1 < weeks := by omega
  simp [StudyPlannerAgent.create_plan, List.getElem?_map, List.getElem?_range, hw1]
  omega

/-- C8: The ATS score of `analyze` is monotone in the count of matched
technical-skill keywords from the fixed vocabulary: if `t₁` matches at
most as many as `t₂`, then `analyze t₁` scores no more than `analyze t₂`;
and every score is at most 100 (it is a `Nat`, hence also at least 0). -/
theorem analyze_monotone (t₁ t₂ role₁ role₂ : String)
    (h : (ResumeAnalyzer.found_tech t₁).length ≤ (ResumeAnalyzer.found_tech t₂).length) :
    (ResumeAnalyzer.analyze t₁ role₁).ats_score ≤ (ResumeAnalyzer.analyze t₂ role₂).ats_score ∧
    ∀ t role : String, (ResumeAnalyzer.analyze t role).ats_score ≤ 100 := by
  constructor
  · simp only [ResumeAnalyzer.analyze]
    exact min_le_min (le_refl 100) (by omega)
  · intro t role
    simp only [ResumeAnalyzer.analyze]
    exact min_le_left _ _

/-- C10: The fixed technical-skill vocabulary has exactly 9 entries, and
for every input text the ATS score of `analyze` lies between 20 and 65
inclusive; hence the cap at 100 never binds and a score of 0 is
unattainable. -/
theorem ats_score_bounds (t role : String) :
    ResumeAnalyzer.technical_skills.length = 9 ∧
    20 ≤ (ResumeAnalyzer.analyze t role).ats_score ∧
    (ResumeAnalyzer.analyze t role).ats_score ≤ 65 := by
  have hlen : (ResumeAnalyzer.found_tech t).length ≤ 9 := by
    have h := List.length_filter_le
      (fun skill => subMatch skill.toList (lowerChars t)) ResumeAnalyzer.technical_skills
    simpa [ResumeAnalyzer.technical_skills] using h
  have hx : (ResumeAnalyzer.found_tech t).length * 5 + 20 ≤ 100 := by omega
  refine ⟨rfl, ?_, ?_⟩ <;> simp only [ResumeAnalyzer.analyze] <;> rw [min_eq_right hx] <;> omega

/-- C9: Apart from `add_student` overwriting a whole session, the store
operations and `process_query` preserve each existing session's activity
log as a prefix of the new one: the new session equals the old with at
most one record appended (exactly one when the updated id matches, none
otherwise) and every other field unchanged, and `get_student_context` is a
pure read returning the stored session. -/
theorem logs_only_grow (students : Store) (u a : String) (d : QueryDetails)
    (tr q t₁ t₂ id : String) (s : Session)
    (h : students id = some s) :
    StudentMemoryBank.get_student_context students id = some s ∧
    StudentMemoryBank.update_progress students u a d tr id =
      some { s with progress := s.progress ++
        (if id = u then [{ activity := a, details := d, timestamp := tr }] else []) } ∧
    (CoordinatorAgent.process_query students u q t₁ t₂).2 id =
      some { s with progress := s.progress ++
        (if id = u then
          [{ activity := "query", details := { question := q, timestamp := t₁ },
             timestamp := t₂ }]
         else []) } := by
  refine ⟨h, ?_, ?_⟩ <;> by_cases hid : id = u
  · subst hid
    simp [StudentMemoryBank.update_progress, h]
  · simp [StudentMemoryBank.update_progress, hid, h]
  · subst hid
    simp [CoordinatorAgent.process_query, StudentMemoryBank.update_progress, h]
  · simp [CoordinatorAgent.process_query, StudentMemoryBank.update_progress, hid, h]

/-- Witness for C2 at the concrete query `"Easy DSA problems"`. -/
theorem resolveLevel_spec_witness :
    anyWordIn ["problem", "dsa", "algorithm"] (lowerChars "Easy DSA problems") = true ∧
    CoordinatorAgent.resolveLevel (lowerChars "Easy DSA problems") = "easy" ∧
    getKey (CoordinatorAgent.process_query demoStore "student_001" "Easy DSA problems"
        "t1" "t2").1.results "dsa_recommendations" =
      some (ResultValue.dsa (DSAProblemRecommender.recommend "easy" none)) := by
  have h := resolveLevel_spec demoStore "student_001" "t1" "t2" "Easy DSA problems" (by decide)
  exact ⟨by decide, h.1 (by decide), h.2.2.2⟩

/-- Witness for C3 at a concrete existing student and query. -/
theorem process_query_appends_witness :
    (CoordinatorAgent.process_query demoStore "student_001" "help me study" "t1" "t2").2
        "student_001" =
      some { demoSession with progress := demoSession.progress ++
        [{ activity := "query",
           details := { question := "help me study", timestamp := "t1" },
           timestamp := "t2" }] } :=
  process_query_appends demoStore "student_001" "help me study" "t1" "t2" demoSession (by decide)

/-- Witness for C4 at a concrete absent student id. -/
theorem process_query_missing_user_witness :
    StudentMemoryBank.get_student_context demoStore "ghost" = none ∧
    (CoordinatorAgent.process_query demoStore "ghost" "dsa please" "t1" "t2").2 = demoStore ∧
    (CoordinatorAgent.process_query demoStore "ghost" "dsa please" "t1" "t2").1.student_id =
      "ghost" ∧
    (CoordinatorAgent.process_query demoStore "ghost" "dsa please" "t1" "t2").1.query =
      "dsa please" ∧
    (CoordinatorAgent.process_query demoStore "ghost" "dsa please" "t1" "t2").1.summary =
      "Here are your personalized recommendations." :=
  process_query_missing_user demoStore "ghost" "dsa please" "t1" "t2" (by decide)

/-- Witness for C7: the 4-week plan over `["DSA", "System Design"]` has four
weeks whose focuses alternate `"DSA"`, `"System Design"`, `"DSA"`,
`"System Design"`. -/
theorem create_plan_spec_witness :
    (StudyPlannerAgent.create_plan 4 ["DSA", "System Design"] 4).weekly_schedule.length = 4 ∧
    (StudyPlannerAgent.create_plan 4 ["DSA", "System Design"] 4).weekly_schedule[0]? =
      some { week := 1, focus := "DSA",
             activities := ["Practice coding problems", "Mock interviews", "Resume review"] } ∧
    (StudyPlannerAgent.create_plan 4 ["DSA", "System Design"] 4).weekly_schedule[1]? =
      some { week := 2, focus := "System Design",
             activities := ["Practice coding problems", "Mock interviews", "Resume review"] } ∧
    (StudyPlannerAgent.create_plan 4 ["DSA", "System Design"] 4).weekly_schedule[2]? =
      some { week := 3, focus := "DSA",
             activities := ["Practice coding problems", "Mock interviews", "Resume review"] } ∧
    (StudyPlannerAgent.create_plan 4 ["DSA", "System Design"] 4).weekly_schedule[3]? =
      some { week := 4, focus := "System Design",
             activities := ["Practice coding problems", "Mock interviews", "Resume review"] } := by
  have h := create_plan_spec 4 ["DSA", "System Design"] 4 (by decide) (by decide)
  exact ⟨h.1, (h.2 1 (by decide) (by decide)).2, (h.2 2 (by decide) (by decide)).2,
    (h.2 3 (by decide) (by decide)).2, (h.2 4 (by decide) (by decide)).2⟩

/-- Witness for C8 at two concrete resume texts with 0 and 2 matched
technical skills. -/
theorem analyze_monotone_witness :
    (ResumeAnalyzer.found_tech "plain text").length ≤
      (ResumeAnalyzer.found_tech "Python and Java developer").length ∧
    (ResumeAnalyzer.analyze "plain text" "Software Engineer").ats_score ≤
      (ResumeAnalyzer.analyze "Python and Java developer" "Software Engineer").ats_score :=
  ⟨by decide,
   (analyze_monotone "plain text" "Python and Java developer" "Software Engineer"
      "Software Engineer" (by decide)).1⟩

/-- Witness for C9 at a concrete store, both for the updated id and for an
untouched id. -/
theorem logs_only_grow_witness :
    StudentMemoryBank.update_progress demoStore "student_001" "act"
        { question := "x", timestamp := "y" } "t3" "student_001" =
      some { demoSession with progress := demoSession.progress ++
        [{ activity := "act", details := { question := "x", timestamp := "y" },
           timestamp := "t3" }] } ∧
    (CoordinatorAgent.process_query demoStore "other" "hi" "t1" "t2").2 "student_001" =
      some { demoSession with progress := demoSession.progress ++ [] } := by
  have h₁ := logs_only_grow demoStore "student_001" "act" { question := "x", timestamp := "y" }
    "t3" "hi" "t1" "t2" "student_001" demoSession (by decide)
  have h₂ := logs_only_grow demoStore "other" "act" { question := "x", timestamp := "y" }
    "t3" "hi" "t1" "t2" "student_001" demoSession (by decide)
  exact ⟨h₁.2.1, h₂.2.2⟩
end Agent
